import Mathlib

/-!
Shallow embedding of the coordination core of `src/src-tauri/src/main.rs`
(a Tauri desktop overlay: debounced window toggle/nudge, a debounced FIFO
image queue, single/batch Gemini inference and the two-stage "beast mode"
escalation pipeline).

Modelling conventions:
* `Instant` timestamps are natural numbers of milliseconds; Rust's
  `Instant::duration_since` on a monotonic clock saturates at zero, which
  `Nat` subtraction reproduces.
* Each `std::sync::Mutex<T>` field is a `MutexCell T`: the protected value
  plus a poison flag. `lock().unwrap()` panics on a poisoned mutex
  (modelled by the `RunResult.panicked` outcome); `lock().map_err(...)`
  turns poison into an `Except.error` value.
* External collaborators (screen capture, the genai chat provider, the
  reqwest HTTP client, the filesystem) are passed in as explicit
  parameters, exactly at the boundary where the source calls them.
* Functions record the network activity they perform (chat requests sent,
  HTTP post made) so that "no network call is made" claims are statable.
-/

namespace InterviewHelper

/-- A `std::sync::Mutex<T>` field: the protected value and whether the
mutex is poisoned. -/
structure MutexCell (α : Type) where
  poisoned : Bool
  val : α
  deriving Repr, DecidableEq

/-- Outcome of running a command handler: either the handler panicked
(`lock().unwrap()` on a poisoned mutex) or it returned a value. -/
inductive RunResult (α : Type) where
  | panicked
  | value (a : α)
  deriving Repr, DecidableEq

/-- The `ToggleState` struct: app-level visibility flag plus the two
debounce timestamps (`last_toggle`, `last_nudge`). -/
structure ToggleState where
  visible : Bool
  lastToggle : MutexCell Nat
  lastNudge : MutexCell Nat
  deriving Repr, DecidableEq

/-- The `ImageQueue` struct: queued artifact paths (insertion order) plus
the capture debounce timestamp (`last_capture`). -/
structure ImageQueue where
  images : MutexCell (List String)
  lastCapture : MutexCell Nat
  deriving Repr, DecidableEq

/-- The `AppConfig` struct: primary API key, model name, secondary
(Hugging Face) token, each behind its own mutex. -/
structure AppConfig where
  apiKey : MutexCell (Option String)
  model : MutexCell String
  hfToken : MutexCell (Option String)
  deriving Repr, DecidableEq

/-- The process environment variables the inference commands consult
(`GEMINI_API_KEY`, `HUGGINGFACE_TOKEN`). -/
structure Env where
  geminiApiKey : Option String
  huggingfaceToken : Option String
  deriving Repr, DecidableEq

/-- The window properties mutated by `toggle_window_visibility`. -/
structure WindowProps where
  alwaysOnTop : Bool
  decorations : Bool
  contentProtected : Bool
  skipTaskbar : Bool
  ignoreCursorEvents : Bool
  deriving Repr, DecidableEq

/-- The window property assignment performed on a confirmed
`Hidden → Visible` transition (main.rs lines 130-134). -/
def visibleProps : WindowProps :=
  { alwaysOnTop := true
    decorations := false
    contentProtected := true
    skipTaskbar := true
    ignoreCursorEvents := false }

/-- Window-property effect of a confirmed toggle: restore the full styled
set when becoming visible, otherwise only start ignoring cursor events
(main.rs lines 127-139). -/
def applyToggleProps (nowVisible : Bool) (w : WindowProps) : WindowProps :=
  if nowVisible then visibleProps
  else { w with ignoreCursorEvents := true }

/-- `toggle_window_visibility` (main.rs lines 110-142). `w = none` models
`app.get_webview_window("main")` returning no window. Returns the
visibility flag reported to the caller plus the updated state. -/
def toggle_window_visibility (s : ToggleState) (w : Option WindowProps)
    (now : Nat) : RunResult (Bool × ToggleState × Option WindowProps) :=
  if s.lastToggle.poisoned then .panicked
  else if now - s.lastToggle.val < 350 then
    .value (s.visible, s, w)
  else
    let s1 := { s with lastToggle := { s.lastToggle with val := now } }
    let nowVisible := !s1.visible
    let s2 := { s1 with visible := nowVisible }
    let w' := w.map (applyToggleProps nowVisible)
    .value (nowVisible, s2, w')

/-- Position computation of `nudge_window` (main.rs lines 90-105): a
step of 0 means a 50-pixel default delta; unknown directions leave the
position unchanged; a missing window (or failed `outer_position()`)
moves nothing. -/
def nudgeTarget (pos : Option (Int × Int)) (direction : String)
    (step : Int) : Option (Int × Int) :=
  match pos with
  | none => none
  | some (x, y) =>
    let delta : Int := if step = 0 then 50 else step
    some
      (if direction = "up" then (x, y - delta)
       else if direction = "down" then (x, y + delta)
       else if direction = "left" then (x - delta, y)
       else if direction = "right" then (x + delta, y)
       else (x, y))

/-- `nudge_window` (main.rs lines 79-108). `pos = none` models a missing
window or a failed `outer_position()`. Returns the updated state and the
(possibly moved) window position. -/
def nudge_window (s : ToggleState) (pos : Option (Int × Int))
    (direction : String) (step : Int) (now : Nat) :
    RunResult (ToggleState × Option (Int × Int)) :=
  if s.lastNudge.poisoned then .panicked
  else if now - s.lastNudge.val < 120 then
    .value (s, pos)
  else
    .value ({ s with lastNudge := { s.lastNudge with val := now } },
      nudgeTarget pos direction step)

/-- `add_image_to_queue` (main.rs lines 358-392). `cap` is the combined
result of the external capture-and-persist sequence (screen lookup,
capture, buffer conversion, PNG save): the artifact path on success, the
first error string otherwise. Returns the command's `Result<usize,
String>` plus the updated queue. -/
def add_image_to_queue (q : ImageQueue) (cap : Except String String)
    (now : Nat) : RunResult (Except String Nat × ImageQueue) :=
  if q.lastCapture.poisoned then .panicked
  else if now - q.lastCapture.val < 500 then
    if q.images.poisoned then .panicked
    else .value (.ok q.images.val.length, q)
  else
    let q1 := { q with lastCapture := { q.lastCapture with val := now } }
    match cap with
    | .error e => .value (.error e, q1)
    | .ok path =>
      if q1.images.poisoned then .panicked
      else
        let imgs := q1.images.val ++ [path]
        .value (.ok imgs.length,
          { q1 with images := { q1.images with val := imgs } })

/-- `get_queue_length` (main.rs lines 394-398). -/
def get_queue_length (q : ImageQueue) : RunResult Nat :=
  if q.images.poisoned then .panicked
  else .value q.images.val.length

/-- `clear_queue` (main.rs lines 400-404). -/
def clear_queue (q : ImageQueue) : RunResult ImageQueue :=
  if q.images.poisoned then .panicked
  else .value { q with images := { q.images with val := [] } }

/-- `set_model` (main.rs lines 241-246): poison is converted to
`Err("Lock poisoned")`. -/
def set_model (model : String) (cfg : AppConfig) :
    Except String (String × AppConfig) :=
  if cfg.model.poisoned then .error "Lock poisoned"
  else .ok (model, { cfg with model := { cfg.model with val := model } })

/-- `set_gemini_api_key` (main.rs lines 195-231), minus the
Windows-registry mirror (an opaque OS side effect): stores the key (or
`None` for a blank key) and updates the `GEMINI_API_KEY` environment
variable. Poison is converted to `Err("Lock poisoned")`. -/
def set_gemini_api_key (key : String) (cfg : AppConfig) (env : Env) :
    Except String (AppConfig × Env) :=
  if cfg.apiKey.poisoned then .error "Lock poisoned"
  else
    let stored := if key.trim.isEmpty then none else some key
    .ok ({ cfg with apiKey := { cfg.apiKey with val := stored } },
         { env with geminiApiKey := stored })

/-- `get_gemini_api_key` (main.rs lines 233-239): a poisoned lock yields
`None` rather than a panic. -/
def get_gemini_api_key (cfg : AppConfig) : Option String :=
  if cfg.apiKey.poisoned then none else cfg.apiKey.val

/-- `set_hf_token` (main.rs lines 248-282), minus the Windows-registry
mirror: stores the token (or `None` for an empty token) and updates the
`HUGGINGFACE_TOKEN` environment variable. Poison is converted to
`Err("Lock poisoned")`. -/
def set_hf_token (token : String) (cfg : AppConfig) (env : Env) :
    Except String (AppConfig × Env) :=
  if cfg.hfToken.poisoned then .error "Lock poisoned"
  else
    let stored := if token.isEmpty then none else some token
    .ok ({ cfg with hfToken := { cfg.hfToken with val := stored } },
         { env with huggingfaceToken := stored })

/-- `get_hf_token` (main.rs lines 284-290): a poisoned lock yields
`None` rather than a panic. -/
def get_hf_token (cfg : AppConfig) : Option String :=
  if cfg.hfToken.poisoned then none else cfg.hfToken.val

/-! ## Base64 (the `base64` crate's `general_purpose::STANDARD` engine) -/

/-- The standard base64 alphabet. -/
def base64Alphabet : List Char :=
  "ABCDEFGHIJKLMNOPQRSTUVWXYZabcdefghijklmnopqrstuvwxyz0123456789+/".toList

/-- The base64 digit for a 6-bit value. -/
def b64Char (n : Nat) : Char := base64Alphabet.getD n 'A'

/-- Standard base64 with `=` padding over a byte list, as performed by
`general_purpose::STANDARD.encode` in the source. -/
def base64Encode : List Nat → String
  | [] => ""
  | [a] =>
    String.mk [b64Char (a / 4), b64Char (a % 4 * 16), '=', '=']
  | [a, b] =>
    String.mk [b64Char (a / 4), b64Char (a % 4 * 16 + b / 16),
      b64Char (b % 16 * 4), '=']
  | a :: b :: c :: rest =>
    String.mk [b64Char (a / 4), b64Char (a % 4 * 16 + b / 16),
      b64Char (b % 16 * 4 + c / 64), b64Char (c % 64)]
      ++ base64Encode rest

/-! ## Chat request construction (genai `ChatRequest`) -/

/-- A genai `ContentPart`: either text or a base64 image with a MIME
type. -/
inductive ContentPart where
  | text (s : String)
  | imageBase64 (mime : String) (data : String)
  deriving Repr, DecidableEq

/-- The chat requests built by the source: one system message plus one
user message whose content is a list of parts. -/
structure ChatRequest where
  system : String
  user : List ContentPart
  deriving Repr, DecidableEq

/-- The loop at main.rs lines 425-432 / 472-479: open and read each
queued artifact in order, base64-encode it, and emit one image part per
artifact; the first file failure aborts with its error. `fs` is the
filesystem (path to byte contents, or the `File::open`/`read_to_end`
error string). -/
def buildImageParts (fs : String → Except String (List Nat)) :
    List String → Except String (List ContentPart)
  | [] => .ok []
  | p :: ps =>
    match fs p with
    | .error e => .error e
    | .ok bytes =>
      match buildImageParts fs ps with
      | .error e => .error e
      | .ok rest => .ok (.imageBase64 "image/png" (base64Encode bytes) :: rest)

/-- System prompt of the batch inference command (main.rs line 435). -/
def batchSystemPrompt : String :=
  "Be concise and helpful. Analyze all provided images in order."

/-- System prompt of the beast-mode extraction stage (main.rs line 482). -/
def extractionSystemPrompt : String :=
  "You are an expert content extractor. Extract ALL text, formulas, diagrams, and structured information from the provided images. Be comprehensive and detailed."

/-- The chat provider (genai `Client::exec_chat` plus
`content_text_as_str`): given a model name and a request, either an
`InferenceError` string, or a response with (`some`) or without (`none`)
text content. -/
def ChatProvider : Type :=
  String → ChatRequest → Except String (Option String)

/-- `call_gemini_with_image_queue` (main.rs lines 406-450). Returns the
command's `Result<String, String>` together with the list of chat calls
made (model name and request), in order. -/
def call_gemini_with_image_queue (env : Env) (prompt : String)
    (q : ImageQueue) (cfg : AppConfig)
    (fs : String → Except String (List Nat)) (provider : ChatProvider) :
    RunResult (Except String String × List (String × ChatRequest)) :=
  if env.geminiApiKey.isNone then
    .value (.error "GEMINI_API_KEY environment variable not set.", [])
  else if q.images.poisoned then .panicked
  else if q.images.val.isEmpty then
    .value (.error "No images in queue", [])
  else
    match buildImageParts fs q.images.val with
    | .error e => .value (.error e, [])
    | .ok parts =>
      let req : ChatRequest :=
        { system := batchSystemPrompt, user := .text prompt :: parts }
      if cfg.model.poisoned then .value (.error "Lock poisoned", [])
      else
        match provider cfg.model.val req with
        | .error e => .value (.error e, [(cfg.model.val, req)])
        | .ok t =>
          .value (.ok (t.getD "[No response]"), [(cfg.model.val, req)])

/-! ## The escalation (Hugging Face) stage of beast mode -/

/-- Just enough of `serde_json::Value` for the response shapes the
source inspects: strings, arrays, objects, and everything else
(numbers, booleans, null). -/
inductive Json where
  | str (s : String)
  | arr (xs : List Json)
  | obj (fields : List (String × Json))
  | other
  deriving Repr

/-- `value[key]` on a `serde_json::Value`: field lookup on objects,
null (here `.other`) on everything else or a missing key. -/
def Json.index (j : Json) (key : String) : Json :=
  match j with
  | .obj fields =>
    match fields.find? (fun kv => kv.fst = key) with
    | some kv => kv.snd
    | none => .other
  | _ => .other

/-- `Value::as_str`. -/
def Json.asStr : Json → Option String
  | .str s => some s
  | _ => none

/-- `Value::as_array`. -/
def Json.asArray : Json → Option (List Json)
  | .arr xs => some xs
  | _ => none

/-- An HTTP status as seen through reqwest: the numeric code plus its
`Display` rendering (code and canonical reason, produced by the http
crate). -/
structure HttpStatus where
  code : Nat
  display : String
  deriving Repr, DecidableEq

/-- `StatusCode::is_success`: 2xx. -/
def HttpStatus.isSuccess (s : HttpStatus) : Bool :=
  200 ≤ s.code && s.code ≤ 299

/-- Outcome of `http_client.post(...).send().await`: a transport error
with no response, or a response carrying a status, the result of
`response.json::<Value>()`, and the result of `response.text()`. -/
inductive HttpOutcome where
  | transportError (e : String)
  | response (status : HttpStatus) (jsonBody : Except String Json)
      (textBody : Except Unit String)
  deriving Repr

/-- Shared banner of every beast-mode degradation notice. -/
def beastHeader : String :=
  "## BEAST MODE EXTRACTION COMPLETE! ðŸš€\n\n**Extracted Content:**\n"

/-- Tail of the "token not configured" notice (main.rs lines 585-588). -/
def hfNotConfiguredSuffix : String :=
  "\n\n**Note:** Hugging Face token not configured. The extracted content above contains all the information from your images. Set a Hugging Face token in the app to enable advanced AI processing."

/-- Success body when no Hugging Face token is configured (main.rs
lines 585-588). -/
def hfNotConfiguredNotice (extracted : String) : String :=
  beastHeader ++ extracted ++ hfNotConfiguredSuffix

/-- Tail of the HTTP 503 notice (main.rs lines 558-562). -/
def hfUnavailableSuffix : String :=
  "\n\n**Note:** Advanced AI processing is temporarily unavailable (Service Unavailable). The extracted content above contains all the information from your images. You can use this content directly or try again later."

/-- Success body on HTTP 503 from the secondary endpoint (main.rs
lines 558-562). -/
def hfUnavailableNotice (extracted : String) : String :=
  beastHeader ++ extracted ++ hfUnavailableSuffix

/-- Tail of the HTTP 400 notice (main.rs lines 563-567). -/
def hfBadRequestSuffix : String :=
  "\n\n**Note:** Advanced AI processing request format error (Bad Request). The extracted content above contains all the information from your images. You can use this content directly."

/-- Success body on HTTP 400 from the secondary endpoint (main.rs
lines 563-567). -/
def hfBadRequestNotice (extracted : String) : String :=
  beastHeader ++ extracted ++ hfBadRequestSuffix

/-- Text of the transport-failure notice between the extraction text and
the transport error message (main.rs lines 573-579). -/
def hfNetworkInfix : String :=
  "\n\n**Note:** Network error occurred while connecting to advanced AI processing: "

/-- Tail of the transport-failure notice (main.rs lines 573-579). -/
def hfNetworkSuffix : String :=
  ". The extracted content above contains all the information from your images. You can use this content directly or check your internet connection and try again."

/-- Success body on a transport failure reaching the secondary endpoint
(main.rs lines 573-579). -/
def hfNetworkErrorNotice (extracted : String) (e : String) : String :=
  beastHeader ++ extracted ++ (hfNetworkInfix ++ e ++ hfNetworkSuffix)

/-- The composite prompt posted to the secondary endpoint (main.rs
lines 504-507). -/
def hfFinalPrompt (extracted : String) : String :=
  "Based on the extracted content below, provide comprehensive answers:\n\n"
  ++ extracted ++
  "\n\nFor MCQ questions: Identify all possibilities for single correct and multiple correct answers.\nFor coding questions: Provide complete code solutions in the requested language with proper formatting."

/-- Parsing of a 2xx secondary response body (main.rs lines 532-552):
array shape (first element's `generated_text`), object shape
(`generated_text`), or the literal fallback notices. -/
def parseHfSuccess (jsonBody : Except String Json) : String :=
  match jsonBody with
  | .error e => "Error parsing AI model response: " ++ e
  | .ok json =>
    match json.asArray with
    | some choices =>
      match choices.head? with
      | some firstChoice =>
        match ((firstChoice.index "generated_text").asStr) with
        | some text => text
        | none => "No generated text in response"
      | none => "Empty response from AI model"
    | none =>
      match ((json.index "generated_text").asStr) with
      | some text => text
      | none => "Unexpected response format from AI model"

/-- Interpretation of the secondary call's outcome (main.rs lines
512-580): the string bound to `gpt_response`, always wrapped in `Ok` by
the caller. -/
def processHfOutcome (extracted : String) (out : HttpOutcome) : String :=
  match out with
  | .transportError e => hfNetworkErrorNotice extracted e
  | .response status jsonBody textBody =>
    if status.isSuccess then parseHfSuccess jsonBody
    else
      let errorText := match textBody with
        | .ok t => t
        | .error _ => "Unknown error"
      if status.code = 503 then hfUnavailableNotice extracted
      else if status.code = 400 then hfBadRequestNotice extracted
      else "AI model API error (" ++ status.display ++ "): " ++ errorText

/-- Network activity of one `call_beast_mode` run: the chat calls made
(model and request, in order) and the body posted to the secondary
endpoint, if any. -/
structure BeastTrace where
  chatCalls : List (String × ChatRequest)
  hfPosted : Option String
  deriving Repr, DecidableEq

/-- `call_beast_mode` (main.rs lines 452-590): the two-stage escalation
pipeline. `http` is the outcome of the single POST to the fixed
secondary endpoint, consulted only if that POST is made. Returns the
command's `Result<String, String>` plus the network trace. -/
def call_beast_mode (env : Env) (prompt : String) (q : ImageQueue)
    (fs : String → Except String (List Nat)) (provider : ChatProvider)
    (http : HttpOutcome) :
    RunResult (Except String String × BeastTrace) :=
  if env.geminiApiKey.isNone then
    .value (.error "GEMINI_API_KEY environment variable not set.",
      ⟨[], none⟩)
  else if q.images.poisoned then .panicked
  else if q.images.val.isEmpty then
    .value (.error "No images in queue", ⟨[], none⟩)
  else
    match buildImageParts fs q.images.val with
    | .error e => .value (.error e, ⟨[], none⟩)
    | .ok parts =>
      let req : ChatRequest :=
        { system := extractionSystemPrompt, user := .text prompt :: parts }
      match provider "gemini-2.0-flash" req with
      | .error e =>
        .value (.error e, ⟨[("gemini-2.0-flash", req)], none⟩)
      | .ok t =>
        let extracted := t.getD "[No extraction]"
        match env.huggingfaceToken with
        | none =>
          .value (.ok (hfNotConfiguredNotice extracted),
            ⟨[("gemini-2.0-flash", req)], none⟩)
        | some _token =>
          .value (.ok (processHfOutcome extracted http),
            ⟨[("gemini-2.0-flash", req)], some (hfFinalPrompt extracted)⟩)

/-- Whether a `call_beast_mode` run ended in a hard error (a `Result::Err`
returned to the caller, as opposed to a success or a panic). -/
def isHardError : RunResult (Except String String × BeastTrace) → Bool
  | .value (.error _, _) => true
  | _ => false

/-- Sequential execution of a burst of `toggle_window_visibility`
requests at the given timestamps, collecting the flag each request
returns. A panic aborts the burst. -/
def runToggles (s : ToggleState) (w : Option WindowProps) :
    List Nat → ToggleState × Option WindowProps × List Bool
  | [] => (s, w, [])
  | t :: ts =>
    match toggle_window_visibility s w t with
    | .panicked => (s, w, [])
    | .value (b, s', w') =>
      let r := runToggles s' w' ts
      (r.1, r.2.1, b :: r.2.2)

/-! ## Theorems -/

/-- C4: every debounce gate (toggle at 350 ms, nudge at 120 ms, capture
at 500 ms) grants a permit iff `now - last_fired` is at least the gate's
minimum interval; on a grant `last_fired` is set to `now` before the
operation's effect, and on a denial no state is mutated. -/
theorem debounce_gates_C4 (s : ToggleState) (w : Option WindowProps)
    (q : ImageQueue) (cap : Except String String)
    (pos : Option (Int × Int)) (dir : String) (step : Int) (now : Nat)
    (ht : s.lastToggle.poisoned = false)
    (hn : s.lastNudge.poisoned = false)
    (hc : q.lastCapture.poisoned = false)
    (hi : q.images.poisoned = false) :
    ((350 ≤ now - s.lastToggle.val →
        toggle_window_visibility s w now =
          .value (!s.visible,
            { s with visible := !s.visible,
                     lastToggle := { s.lastToggle with val := now } },
            w.map (applyToggleProps (!s.visible)))) ∧
      (now - s.lastToggle.val < 350 →
        toggle_window_visibility s w now = .value (s.visible, s, w)))
    ∧
    ((120 ≤ now - s.lastNudge.val →
        nudge_window s pos dir step now =
          .value ({ s with lastNudge := { s.lastNudge with val := now } },
            nudgeTarget pos dir step)) ∧
      (now - s.lastNudge.val < 120 →
        nudge_window s pos dir step now = .value (s, pos)))
    ∧
    (((500 ≤ now - q.lastCapture.val →
        (∀ e, cap = .error e →
          add_image_to_queue q cap now =
            .value (.error e,
              { q with lastCapture := { q.lastCapture with val := now } })) ∧
        (∀ path, cap = .ok path →
          add_image_to_queue q cap now =
            .value (.ok (q.images.val ++ [path]).length,
              { q with
                  images := { q.images with val := q.images.val ++ [path] },
                  lastCapture := { q.lastCapture with val := now } }))) ∧
      (now - q.lastCapture.val < 500 →
        add_image_to_queue q cap now =
          .value (.ok q.images.val.length, q)))) := by
  refine ⟨⟨?_, ?_⟩, ⟨?_, ?_⟩, ⟨?_, ?_⟩⟩ <;> intro h
  · simp [toggle_window_visibility, ht, Nat.not_lt.mpr h]
  · simp [toggle_window_visibility, ht, h]
  · simp [nudge_window, hn, Nat.not_lt.mpr h]
  · simp [nudge_window, hn, h]
  · constructor
    · rintro e rfl
      simp [add_image_to_queue, hc, Nat.not_lt.mpr h]
    · rintro path rfl
      simp [add_image_to_queue, hc, hi, Nat.not_lt.mpr h]
  · simp [add_image_to_queue, hc, hi, h]

/-- Witness for `debounce_gates_C4`: at `now = 1000` with all three
gates last fired at 0, each gate grants; at `now = 0` with last fired at
0, each gate denies. -/
theorem debounce_gates_C4_witness :
    (toggle_window_visibility ⟨true, ⟨false, 0⟩, ⟨false, 0⟩⟩ none 1000 =
      .value (false, ⟨false, ⟨false, 1000⟩, ⟨false, 0⟩⟩, none)) ∧
    (toggle_window_visibility ⟨true, ⟨false, 0⟩, ⟨false, 0⟩⟩ none 0 =
      .value (true, ⟨true, ⟨false, 0⟩, ⟨false, 0⟩⟩, none)) ∧
    (nudge_window ⟨true, ⟨false, 0⟩, ⟨false, 0⟩⟩ (some (5, 5)) "up" 0 1000 =
      .value (⟨true, ⟨false, 0⟩, ⟨false, 1000⟩⟩, some (5, -45))) ∧
    (add_image_to_queue ⟨⟨false, []⟩, ⟨false, 0⟩⟩ (.ok "a.png") 1000 =
      .value (.ok 1, ⟨⟨false, ["a.png"]⟩, ⟨false, 1000⟩⟩)) := by
  have h := debounce_gates_C4 ⟨true, ⟨false, 0⟩, ⟨false, 0⟩⟩ none
    ⟨⟨false, []⟩, ⟨false, 0⟩⟩ (.ok "a.png") (some (5, 5)) "up" 0 1000
    rfl rfl rfl rfl
  have h0 := debounce_gates_C4 ⟨true, ⟨false, 0⟩, ⟨false, 0⟩⟩ none
    ⟨⟨false, []⟩, ⟨false, 0⟩⟩ (.ok "a.png") (some (5, 5)) "up" 0 0
    rfl rfl rfl rfl
  exact ⟨h.1.1 (by decide), h0.1.2 (by decide), h.2.1.1 (by decide),
    (h.2.2.1 (by decide)).2 "a.png" rfl⟩

/-- Runs of `toggle_window_visibility` that are all denied leave the
state and window untouched and each return the current flag. -/
theorem runToggles_all_denied (s : ToggleState) (w : Option WindowProps)
    (ts : List Nat) (hp : s.lastToggle.poisoned = false)
    (hd : ∀ t ∈ ts, t - s.lastToggle.val < 350) :
    runToggles s w ts = (s, w, ts.map (fun _ => s.visible)) := by
  induction ts with
  | nil => simp [runToggles]
  | cons t ts ih =>
    have h1 : t - s.lastToggle.val < 350 := hd t (by simp)
    have hstep : toggle_window_visibility s w t = .value (s.visible, s, w) := by
      simp [toggle_window_visibility, hp, h1]
    have hrest := ih (fun t' ht' => hd t' (List.mem_cons_of_mem _ ht'))
    simp [runToggles, hstep, hrest]

/-- C5: in a burst of toggle requests all issued within 350 ms of the
first (which is granted), only the first flips the visibility flag;
every later request is denied, returns the then-current flag and changes
nothing, so the state after the burst is the state after exactly one
toggle. -/
theorem toggle_burst_C5 (s : ToggleState) (w : Option WindowProps)
    (t0 : Nat) (ts : List Nat)
    (hp : s.lastToggle.poisoned = false)
    (hfirst : 350 ≤ t0 - s.lastToggle.val)
    (hburst : ∀ t ∈ ts, t - t0 < 350) :
    runToggles s w (t0 :: ts) =
      ({ s with visible := !s.visible,
                lastToggle := { s.lastToggle with val := t0 } },
       w.map (applyToggleProps (!s.visible)),
       (!s.visible) :: ts.map (fun _ => !s.visible)) ∧
    (runToggles s w (t0 :: ts)).1 = (runToggles s w [t0]).1 ∧
    (runToggles s w (t0 :: ts)).2.1 = (runToggles s w [t0]).2.1 := by
  have hstep : toggle_window_visibility s w t0 =
      .value (!s.visible,
        { s with visible := !s.visible,
                 lastToggle := { s.lastToggle with val := t0 } },
        w.map (applyToggleProps (!s.visible))) := by
    simp [toggle_window_visibility, hp, Nat.not_lt.mpr hfirst]
  have hrest := runToggles_all_denied
    { s with visible := !s.visible,
             lastToggle := { s.lastToggle with val := t0 } }
    (w.map (applyToggleProps (!s.visible))) ts hp hburst
  have hmain : runToggles s w (t0 :: ts) =
      ({ s with visible := !s.visible,
                lastToggle := { s.lastToggle with val := t0 } },
       w.map (applyToggleProps (!s.visible)),
       (!s.visible) :: ts.map (fun _ => !s.visible)) := by
    simp [runToggles, hstep, hrest]
  have hsingle : runToggles s w [t0] =
      ({ s with visible := !s.visible,
                lastToggle := { s.lastToggle with val := t0 } },
       w.map (applyToggleProps (!s.visible)), [!s.visible]) := by
    simp [runToggles, hstep]
  exact ⟨hmain, by rw [hmain, hsingle], by rw [hmain, hsingle]⟩

/-- Witness for `toggle_burst_C5`: a burst at times 1000, 1100, 1200
starting from a visible window toggled last at 0 flips the flag exactly
once. -/
theorem toggle_burst_C5_witness :
    runToggles ⟨true, ⟨false, 0⟩, ⟨false, 0⟩⟩ none [1000, 1100, 1200] =
      (⟨false, ⟨false, 1000⟩, ⟨false, 0⟩⟩, none, [false, false, false]) := by
  have h := toggle_burst_C5 ⟨true, ⟨false, 0⟩, ⟨false, 0⟩⟩ none 1000
    [1100, 1200] rfl (by decide) (by decide)
  exact h.1

/-- C6: a confirmed `Hidden → Visible` toggle sets all five window
properties (always-on-top on, decorations off, content protection on,
skip-taskbar on, cursor events no longer ignored); a confirmed
`Visible → Hidden` toggle only starts ignoring cursor events and leaves
the other four properties unchanged. -/
theorem toggle_props_C6 (s : ToggleState) (w : WindowProps) (now : Nat)
    (hp : s.lastToggle.poisoned = false)
    (hgrant : 350 ≤ now - s.lastToggle.val) :
    (s.visible = false →
      toggle_window_visibility s (some w) now =
        .value (true,
          { s with visible := true,
                   lastToggle := { s.lastToggle with val := now } },
          some { alwaysOnTop := true, decorations := false,
                 contentProtected := true, skipTaskbar := true,
                 ignoreCursorEvents := false })) ∧
    (s.visible = true →
      toggle_window_visibility s (some w) now =
        .value (false,
          { s with visible := false,
                   lastToggle := { s.lastToggle with val := now } },
          some { w with ignoreCursorEvents := true })) := by
  constructor <;> intro hv <;>
    simp [toggle_window_visibility, hp, Nat.not_lt.mpr hgrant, hv,
      applyToggleProps, visibleProps]

/-- Witness for `toggle_props_C6`: concrete hidden→visible and
visible→hidden transitions at `now = 1000`. -/
theorem toggle_props_C6_witness :
    (toggle_window_visibility ⟨false, ⟨false, 0⟩, ⟨false, 0⟩⟩
        (some ⟨false, true, false, false, true⟩) 1000 =
      .value (true, ⟨true, ⟨false, 1000⟩, ⟨false, 0⟩⟩,
        some ⟨true, false, true, true, false⟩)) ∧
    (toggle_window_visibility ⟨true, ⟨false, 0⟩, ⟨false, 0⟩⟩
        (some ⟨true, false, true, true, false⟩) 1000 =
      .value (false, ⟨false, ⟨false, 1000⟩, ⟨false, 0⟩⟩,
        some ⟨true, false, true, true, true⟩)) := by
  have h1 := toggle_props_C6 ⟨false, ⟨false, 0⟩, ⟨false, 0⟩⟩
    ⟨false, true, false, false, true⟩ 1000 rfl (by decide)
  have h2 := toggle_props_C6 ⟨true, ⟨false, 0⟩, ⟨false, 0⟩⟩
    ⟨true, false, true, true, false⟩ 1000 rfl (by decide)
  exact ⟨h1.1 rfl, h2.2 rfl⟩

/-- C9 counterexample: the claim says every lock-taking operation
converts a poisoned lock into a reported error value, but toggle, nudge,
enqueue-capture, queue length and clear all call `lock().unwrap()` and
panic on a poisoned lock. -/
theorem poisoned_lock_C9_counterexample :
    toggle_window_visibility ⟨true, ⟨true, 0⟩, ⟨false, 0⟩⟩ none 1000 =
      .panicked ∧
    nudge_window ⟨true, ⟨false, 0⟩, ⟨true, 0⟩⟩ none "up" 0 1000 = .panicked ∧
    add_image_to_queue ⟨⟨false, []⟩, ⟨true, 0⟩⟩ (.ok "a.png") 1000 =
      .panicked ∧
    get_queue_length ⟨⟨true, []⟩, ⟨false, 0⟩⟩ = .panicked ∧
    clear_queue ⟨⟨true, []⟩, ⟨false, 0⟩⟩ = .panicked := by
  refine ⟨?_, ?_, ?_, ?_, ?_⟩ <;> rfl

/-- C9 (amended): only the configuration accessors convert a poisoned
lock into a reported value (`Err "Lock poisoned"` for the setters,
`None` for the getters); toggle, nudge, enqueue-capture, queue length
and clear panic on a poisoned lock. -/
theorem poisoned_lock_C9 (s : ToggleState) (q : ImageQueue)
    (cfg : AppConfig) (env : Env) (w : Option WindowProps)
    (pos : Option (Int × Int)) (dir : String) (step : Int)
    (cap : Except String String) (now : Nat) (m k tk : String)
    (hts : s.lastToggle.poisoned = true)
    (hns : s.lastNudge.poisoned = true)
    (hcap : q.lastCapture.poisoned = true)
    (him : q.images.poisoned = true)
    (hm : cfg.model.poisoned = true)
    (hak : cfg.apiKey.poisoned = true)
    (hhf : cfg.hfToken.poisoned = true) :
    toggle_window_visibility s w now = .panicked ∧
    nudge_window s pos dir step now = .panicked ∧
    add_image_to_queue q cap now = .panicked ∧
    get_queue_length q = .panicked ∧
    clear_queue q = .panicked ∧
    set_model m cfg = .error "Lock poisoned" ∧
    set_gemini_api_key k cfg env = .error "Lock poisoned" ∧
    set_hf_token tk cfg env = .error "Lock poisoned" ∧
    get_gemini_api_key cfg = none ∧
    get_hf_token cfg = none := by
  refine ⟨?_, ?_, ?_, ?_, ?_, ?_, ?_, ?_, ?_, ?_⟩ <;>
    simp [toggle_window_visibility, nudge_window, add_image_to_queue,
      get_queue_length, clear_queue, set_model, set_gemini_api_key,
      set_hf_token, get_gemini_api_key, get_hf_token,
      hts, hns, hcap, him, hm, hak, hhf]

/-- Witness for `poisoned_lock_C9` at a fully poisoned concrete state. -/
theorem poisoned_lock_C9_witness :
    toggle_window_visibility ⟨true, ⟨true, 0⟩, ⟨true, 0⟩⟩ none 7 =
      .panicked ∧
    nudge_window ⟨true, ⟨true, 0⟩, ⟨true, 0⟩⟩ none "up" 0 7 = .panicked ∧
    add_image_to_queue ⟨⟨true, []⟩, ⟨true, 0⟩⟩ (.ok "a.png") 7 = .panicked ∧
    get_queue_length ⟨⟨true, []⟩, ⟨true, 0⟩⟩ = .panicked ∧
    clear_queue ⟨⟨true, []⟩, ⟨true, 0⟩⟩ = .panicked ∧
    set_model "m" ⟨⟨true, none⟩, ⟨true, "g"⟩, ⟨true, none⟩⟩ =
      .error "Lock poisoned" ∧
    set_gemini_api_key "k" ⟨⟨true, none⟩, ⟨true, "g"⟩, ⟨true, none⟩⟩
        ⟨none, none⟩ = .error "Lock poisoned" ∧
    set_hf_token "t" ⟨⟨true, none⟩, ⟨true, "g"⟩, ⟨true, none⟩⟩
        ⟨none, none⟩ = .error "Lock poisoned" ∧
    get_gemini_api_key ⟨⟨true, none⟩, ⟨true, "g"⟩, ⟨true, none⟩⟩ = none ∧
    get_hf_token ⟨⟨true, none⟩, ⟨true, "g"⟩, ⟨true, none⟩⟩ = none :=
  poisoned_lock_C9 ⟨true, ⟨true, 0⟩, ⟨true, 0⟩⟩ ⟨⟨true, []⟩, ⟨true, 0⟩⟩
    ⟨⟨true, none⟩, ⟨true, "g"⟩, ⟨true, none⟩⟩ ⟨none, none⟩ none none "up" 0
    (.ok "a.png") 7 "m" "k" "t" rfl rfl rfl rfl rfl rfl rfl

/-- A nonempty list is not `isEmpty`. -/
theorem ne_nil_isEmpty_false {α : Type} (l : List α) (h : l ≠ []) :
    l.isEmpty = false := by
  cases l with
  | nil => exact absurd rfl h
  | cons a l => rfl

/-- If every queued artifact is readable, the image-part loop produces
one base64 image part per artifact, in queue order. -/
theorem buildImageParts_all_ok (fs : String → Except String (List Nat))
    (bytesOf : String → List Nat) (ps : List String)
    (hfs : ∀ p ∈ ps, fs p = .ok (bytesOf p)) :
    buildImageParts fs ps =
      .ok (ps.map (fun p =>
        .imageBase64 "image/png" (base64Encode (bytesOf p)))) := by
  induction ps with
  | nil => simp [buildImageParts]
  | cons p ps ih =>
    have hp : fs p = .ok (bytesOf p) := hfs p (by simp)
    have hrest := ih (fun p' hp' => hfs p' (List.mem_cons_of_mem _ hp'))
    simp [buildImageParts, hp, hrest]

/-- If any queued artifact is unreadable, the image-part loop fails. -/
theorem buildImageParts_err (fs : String → Except String (List Nat))
    (ps : List String) (p m : String) (hmem : p ∈ ps)
    (hp : fs p = .error m) :
    ∃ e, buildImageParts fs ps = .error e := by
  induction ps with
  | nil => cases hmem
  | cons q ps ih =>
    cases hq : fs q with
    | error e => exact ⟨e, by simp [buildImageParts, hq]⟩
    | ok b =>
      have hmem' : p ∈ ps := by
        rcases List.mem_cons.mp hmem with h | h
        · subst h
          rw [hp] at hq
          cases hq
        · exact h
      obtain ⟨e, he⟩ := ih hmem'
      exact ⟨e, by simp [buildImageParts, hq, he]⟩

/-- C7: both batch inference and the extraction stage of beast mode fail
with the missing-credential error before any network activity when the
primary credential is absent (whatever the queue holds, so the
credential check comes first), and with the empty-queue error without
any network call when the credential is present but the queue is
empty. -/
theorem inference_preconditions_C7 (prompt : String) (tok : Option String)
    (q : ImageQueue) (cfg : AppConfig)
    (fs : String → Except String (List Nat)) (provider : ChatProvider)
    (http : HttpOutcome) :
    (call_gemini_with_image_queue ⟨none, tok⟩ prompt q cfg fs provider =
        .value (.error "GEMINI_API_KEY environment variable not set.", []) ∧
      call_beast_mode ⟨none, tok⟩ prompt q fs provider http =
        .value (.error "GEMINI_API_KEY environment variable not set.",
          ⟨[], none⟩)) ∧
    (∀ k, q.images.poisoned = false → q.images.val = [] →
      call_gemini_with_image_queue ⟨some k, tok⟩ prompt q cfg fs provider =
          .value (.error "No images in queue", []) ∧
      call_beast_mode ⟨some k, tok⟩ prompt q fs provider http =
          .value (.error "No images in queue", ⟨[], none⟩)) := by
  constructor
  · constructor <;> rfl
  · intro k hpq hq
    constructor <;>
      simp [call_gemini_with_image_queue, call_beast_mode, hpq, hq]

/-- Witness for `inference_preconditions_C7` at concrete inputs: an
absent credential and an empty queue. -/
theorem inference_preconditions_C7_witness :
    (call_gemini_with_image_queue ⟨none, none⟩ "p" ⟨⟨false, []⟩, ⟨false, 0⟩⟩
        ⟨⟨false, none⟩, ⟨false, "gemini-2.5-pro"⟩, ⟨false, none⟩⟩
        (fun _ => .error "gone") (fun _ _ => .error "x") =
      .value (.error "GEMINI_API_KEY environment variable not set.", [])) ∧
    (call_beast_mode ⟨none, none⟩ "p" ⟨⟨false, []⟩, ⟨false, 0⟩⟩
        (fun _ => .error "gone") (fun _ _ => .error "x")
        (.transportError "down") =
      .value (.error "GEMINI_API_KEY environment variable not set.",
        ⟨[], none⟩)) ∧
    (call_gemini_with_image_queue ⟨some "k", none⟩ "p"
        ⟨⟨false, []⟩, ⟨false, 0⟩⟩
        ⟨⟨false, none⟩, ⟨false, "gemini-2.5-pro"⟩, ⟨false, none⟩⟩
        (fun _ => .error "gone") (fun _ _ => .error "x") =
      .value (.error "No images in queue", [])) ∧
    (call_beast_mode ⟨some "k", none⟩ "p" ⟨⟨false, []⟩, ⟨false, 0⟩⟩
        (fun _ => .error "gone") (fun _ _ => .error "x")
        (.transportError "down") =
      .value (.error "No images in queue", ⟨[], none⟩)) := by
  have h := inference_preconditions_C7 "p" none ⟨⟨false, []⟩, ⟨false, 0⟩⟩
    ⟨⟨false, none⟩, ⟨false, "gemini-2.5-pro"⟩, ⟨false, none⟩⟩
    (fun _ => .error "gone") (fun _ _ => .error "x") (.transportError "down")
  exact ⟨h.1.1, h.1.2, (h.2 "k" rfl rfl).1, (h.2 "k" rfl rfl).2⟩

/-- C8: for a nonempty queue of readable artifacts, the batch-inference
request's user turn is exactly one text part (the prompt) followed by
one base64 image part per queued artifact, in insertion order, and that
single request is the only chat call made. -/
theorem batch_request_shape_C8 (prompt k : String) (tok : Option String)
    (q : ImageQueue) (cfg : AppConfig) (provider : ChatProvider)
    (fs : String → Except String (List Nat)) (bytesOf : String → List Nat)
    (hpq : q.images.poisoned = false) (hpm : cfg.model.poisoned = false)
    (hne : q.images.val ≠ [])
    (hfs : ∀ p ∈ q.images.val, fs p = .ok (bytesOf p)) :
    ∃ r, call_gemini_with_image_queue ⟨some k, tok⟩ prompt q cfg fs provider =
      .value (r,
        [(cfg.model.val,
          { system := batchSystemPrompt,
            user := .text prompt ::
              q.images.val.map (fun p =>
                .imageBase64 "image/png" (base64Encode (bytesOf p))) })]) := by
  have hbuild := buildImageParts_all_ok fs bytesOf q.images.val hfs
  have hempty := ne_nil_isEmpty_false q.images.val hne
  cases hp : provider cfg.model.val
      { system := batchSystemPrompt,
        user := .text prompt ::
          q.images.val.map (fun p =>
            .imageBase64 "image/png" (base64Encode (bytesOf p))) } with
  | error e =>
    exact ⟨.error e, by
      simp [call_gemini_with_image_queue, hpq, hempty, hbuild, hpm, hp]⟩
  | ok t =>
    exact ⟨.ok (t.getD "[No response]"), by
      simp [call_gemini_with_image_queue, hpq, hempty, hbuild, hpm, hp]⟩

/-- Witness for `batch_request_shape_C8`: a 3-item queue produces a
request with the prompt text part followed by the three artifacts'
base64 encodings in insertion order. -/
theorem batch_request_shape_C8_witness :
    ∃ r, call_gemini_with_image_queue ⟨some "k", none⟩ "p"
        ⟨⟨false, ["a", "b", "c"]⟩, ⟨false, 0⟩⟩
        ⟨⟨false, none⟩, ⟨false, "gemini-2.5-pro"⟩, ⟨false, none⟩⟩
        (fun p => .ok (if p = "a" then [1] else if p = "b" then [2] else [3]))
        (fun _ _ => .ok (some "answer")) =
      .value (r,
        [("gemini-2.5-pro",
          { system := batchSystemPrompt,
            user := [.text "p",
              .imageBase64 "image/png" (base64Encode [1]),
              .imageBase64 "image/png" (base64Encode [2]),
              .imageBase64 "image/png" (base64Encode [3])] })]) := by
  obtain ⟨r, hr⟩ := batch_request_shape_C8 "p" "k" none
    ⟨⟨false, ["a", "b", "c"]⟩, ⟨false, 0⟩⟩
    ⟨⟨false, none⟩, ⟨false, "gemini-2.5-pro"⟩, ⟨false, none⟩⟩
    (fun _ _ => .ok (some "answer"))
    (fun p => .ok (if p = "a" then [1] else if p = "b" then [2] else [3]))
    (fun p => if p = "a" then [1] else if p = "b" then [2] else [3])
    rfl rfl (by simp) (fun p _ => rfl)
  exact ⟨r, hr⟩

/-- C10: if any queued artifact's file cannot be read at request-build
time, batch inference and the beast-mode extraction stage return an
error and make no network call at all (no skipping, no shortened
request). -/
theorem unreadable_artifact_C10 (prompt k : String) (tok : Option String)
    (q : ImageQueue) (cfg : AppConfig) (provider : ChatProvider)
    (http : HttpOutcome) (fs : String → Except String (List Nat))
    (p m : String) (hpq : q.images.poisoned = false)
    (hmem : p ∈ q.images.val) (hbad : fs p = .error m) :
    (∃ e, call_gemini_with_image_queue ⟨some k, tok⟩ prompt q cfg fs provider =
      .value (.error e, [])) ∧
    (∃ e, call_beast_mode ⟨some k, tok⟩ prompt q fs provider http =
      .value (.error e, ⟨[], none⟩)) := by
  have hne : q.images.val ≠ [] := by
    intro h
    rw [h] at hmem
    cases hmem
  have hempty := ne_nil_isEmpty_false q.images.val hne
  obtain ⟨e, he⟩ := buildImageParts_err fs q.images.val p m hmem hbad
  exact ⟨⟨e, by simp [call_gemini_with_image_queue, hpq, hempty, he]⟩,
    ⟨e, by simp [call_beast_mode, hpq, hempty, he]⟩⟩

/-- Witness for `unreadable_artifact_C10`: a one-item queue whose file
read fails. -/
theorem unreadable_artifact_C10_witness :
    (∃ e, call_gemini_with_image_queue ⟨some "k", none⟩ "p"
        ⟨⟨false, ["a"]⟩, ⟨false, 0⟩⟩
        ⟨⟨false, none⟩, ⟨false, "gemini-2.5-pro"⟩, ⟨false, none⟩⟩
        (fun _ => .error "No such file or directory (os error 2)")
        (fun _ _ => .ok (some "answer")) =
      .value (.error e, [])) ∧
    (∃ e, call_beast_mode ⟨some "k", none⟩ "p" ⟨⟨false, ["a"]⟩, ⟨false, 0⟩⟩
        (fun _ => .error "No such file or directory (os error 2)")
        (fun _ _ => .ok (some "answer")) (.transportError "down") =
      .value (.error e, ⟨[], none⟩)) :=
  unreadable_artifact_C10 "p" "k" none ⟨⟨false, ["a"]⟩, ⟨false, 0⟩⟩
    ⟨⟨false, none⟩, ⟨false, "gemini-2.5-pro"⟩, ⟨false, none⟩⟩
    (fun _ _ => .ok (some "answer")) (.transportError "down")
    (fun _ => .error "No such file or directory (os error 2)") "a"
    "No such file or directory (os error 2)" rfl (by simp) rfl

/-- C3: every extraction-stage failure of the beast-mode pipeline —
missing primary credential, empty queue, or a provider-reported
inference failure — is returned to the caller unchanged, and the
secondary (Hugging Face) stage is never invoked. -/
theorem beast_stage1_failure_C3 (prompt : String) (tok : Option String)
    (q : ImageQueue) (fs : String → Except String (List Nat))
    (provider : ChatProvider) (http : HttpOutcome) :
    (call_beast_mode ⟨none, tok⟩ prompt q fs provider http =
      .value (.error "GEMINI_API_KEY environment variable not set.",
        ⟨[], none⟩)) ∧
    (∀ k, q.images.poisoned = false → q.images.val = [] →
      call_beast_mode ⟨some k, tok⟩ prompt q fs provider http =
        .value (.error "No images in queue", ⟨[], none⟩)) ∧
    (∀ k parts e, q.images.poisoned = false → q.images.val ≠ [] →
      buildImageParts fs q.images.val = .ok parts →
      provider "gemini-2.0-flash"
        { system := extractionSystemPrompt,
          user := .text prompt :: parts } = .error e →
      call_beast_mode ⟨some k, tok⟩ prompt q fs provider http =
        .value (.error e,
          ⟨[("gemini-2.0-flash",
             { system := extractionSystemPrompt,
               user := .text prompt :: parts })], none⟩)) := by
  refine ⟨rfl, ?_, ?_⟩
  · intro k hpq hq
    simp [call_beast_mode, hpq, hq]
  · intro k parts e hpq hne hbuild hprov
    have hempty := ne_nil_isEmpty_false q.images.val hne
    simp [call_beast_mode, hpq, hempty, hbuild, hprov]

/-- Witness for `beast_stage1_failure_C3` at concrete inputs for all
three extraction-failure classes. -/
theorem beast_stage1_failure_C3_witness :
    (call_beast_mode ⟨none, some "t"⟩ "p" ⟨⟨false, ["a"]⟩, ⟨false, 0⟩⟩
        (fun _ => .ok [1]) (fun _ _ => .error "inference down")
        (.transportError "net") =
      .value (.error "GEMINI_API_KEY environment variable not set.",
        ⟨[], none⟩)) ∧
    (call_beast_mode ⟨some "k", some "t"⟩ "p" ⟨⟨false, []⟩, ⟨false, 0⟩⟩
        (fun _ => .ok [1]) (fun _ _ => .error "inference down")
        (.transportError "net") =
      .value (.error "No images in queue", ⟨[], none⟩)) ∧
    (call_beast_mode ⟨some "k", some "t"⟩ "p" ⟨⟨false, ["a"]⟩, ⟨false, 0⟩⟩
        (fun _ => .ok [1]) (fun _ _ => .error "inference down")
        (.transportError "net") =
      .value (.error "inference down",
        ⟨[("gemini-2.0-flash",
           { system := extractionSystemPrompt,
             user := [.text "p",
               .imageBase64 "image/png" (base64Encode [1])] })], none⟩)) := by
  have h1 := beast_stage1_failure_C3 "p" (some "t")
    ⟨⟨false, ["a"]⟩, ⟨false, 0⟩⟩ (fun _ => .ok [1])
    (fun _ _ => .error "inference down") (.transportError "net")
  have h2 := beast_stage1_failure_C3 "p" (some "t")
    ⟨⟨false, []⟩, ⟨false, 0⟩⟩ (fun _ => .ok [1])
    (fun _ _ => .error "inference down") (.transportError "net")
  exact ⟨h1.1, h2.2.1 "k" rfl rfl,
    h1.2.2 "k" [.imageBase64 "image/png" (base64Encode [1])]
      "inference down" rfl (by simp) rfl rfl⟩

/-- C1: once the extraction stage succeeds, each of the four escalation
failure classes — secondary credential absent, HTTP 503, HTTP 400, or a
transport failure — produces a successful result (never an error) whose
body is the extraction text surrounded by a non-empty human-readable
notice. -/
theorem beast_degrade_success_C1 (prompt k : String) (q : ImageQueue)
    (fs : String → Except String (List Nat)) (provider : ChatProvider)
    (parts : List ContentPart) (t : Option String)
    (hpq : q.images.poisoned = false) (hne : q.images.val ≠ [])
    (hbuild : buildImageParts fs q.images.val = .ok parts)
    (hprov : provider "gemini-2.0-flash"
      { system := extractionSystemPrompt,
        user := .text prompt :: parts } = .ok t) :
    (∀ http, call_beast_mode ⟨some k, none⟩ prompt q fs provider http =
      .value (.ok (hfNotConfiguredNotice (t.getD "[No extraction]")),
        ⟨[("gemini-2.0-flash",
           { system := extractionSystemPrompt,
             user := .text prompt :: parts })], none⟩)) ∧
    (∀ tok st jb tb, st.code = 503 →
      call_beast_mode ⟨some k, some tok⟩ prompt q fs provider
          (.response st jb tb) =
        .value (.ok (hfUnavailableNotice (t.getD "[No extraction]")),
          ⟨[("gemini-2.0-flash",
             { system := extractionSystemPrompt,
               user := .text prompt :: parts })],
           some (hfFinalPrompt (t.getD "[No extraction]"))⟩)) ∧
    (∀ tok st jb tb, st.code = 400 →
      call_beast_mode ⟨some k, some tok⟩ prompt q fs provider
          (.response st jb tb) =
        .value (.ok (hfBadRequestNotice (t.getD "[No extraction]")),
          ⟨[("gemini-2.0-flash",
             { system := extractionSystemPrompt,
               user := .text prompt :: parts })],
           some (hfFinalPrompt (t.getD "[No extraction]"))⟩)) ∧
    (∀ tok e, call_beast_mode ⟨some k, some tok⟩ prompt q fs provider
          (.transportError e) =
        .value (.ok (hfNetworkErrorNotice (t.getD "[No extraction]") e),
          ⟨[("gemini-2.0-flash",
             { system := extractionSystemPrompt,
               user := .text prompt :: parts })],
           some (hfFinalPrompt (t.getD "[No extraction]"))⟩)) ∧
    (∀ s, ∃ u v, hfNotConfiguredNotice s = u ++ s ++ v ∧ u ≠ "" ∧ v ≠ "") ∧
    (∀ s, ∃ u v, hfUnavailableNotice s = u ++ s ++ v ∧ u ≠ "" ∧ v ≠ "") ∧
    (∀ s, ∃ u v, hfBadRequestNotice s = u ++ s ++ v ∧ u ≠ "" ∧ v ≠ "") ∧
    (∀ s e, ∃ u v, hfNetworkErrorNotice s e = u ++ s ++ v ∧
      u ≠ "" ∧ v ≠ "") := by
  have hempty := ne_nil_isEmpty_false q.images.val hne
  refine ⟨?_, ?_, ?_, ?_, ?_, ?_, ?_, ?_⟩
  · intro http
    simp [call_beast_mode, hpq, hempty, hbuild, hprov]
  · intro tok st jb tb h503
    have hns : st.isSuccess = false := by
      simp only [HttpStatus.isSuccess, h503]
      decide
    simp [call_beast_mode, hpq, hempty, hbuild, hprov, processHfOutcome,
      hns, h503]
  · intro tok st jb tb h400
    have hns : st.isSuccess = false := by
      simp only [HttpStatus.isSuccess, h400]
      decide
    simp [call_beast_mode, hpq, hempty, hbuild, hprov, processHfOutcome,
      hns, h400]
  · intro tok e
    simp [call_beast_mode, hpq, hempty, hbuild, hprov, processHfOutcome]
  · exact fun s => ⟨beastHeader, hfNotConfiguredSuffix, rfl,
      by decide, by decide⟩
  · exact fun s => ⟨beastHeader, hfUnavailableSuffix, rfl,
      by decide, by decide⟩
  · exact fun s => ⟨beastHeader, hfBadRequestSuffix, rfl,
      by decide, by decide⟩
  · intro s e
    refine ⟨beastHeader, hfNetworkInfix ++ e ++ hfNetworkSuffix, rfl,
      by decide, fun hcontra => ?_⟩
    have hlen := congrArg String.length hcontra
    rw [String.length_append, String.length_append] at hlen
    have h1 : 0 < hfNetworkInfix.length := by decide
    have h0 : ("" : String).length = 0 := rfl
    rw [h0] at hlen
    omega

/-- Witness for `beast_degrade_success_C1`: a one-item queue, a
successful extraction returning "X", and each of the four escalation
failure classes at concrete inputs. -/
theorem beast_degrade_success_C1_witness :
    (call_beast_mode ⟨some "k", none⟩ "p" ⟨⟨false, ["a"]⟩, ⟨false, 0⟩⟩
        (fun _ => .ok [1]) (fun _ _ => .ok (some "X"))
        (.transportError "down") =
      .value (.ok (hfNotConfiguredNotice "X"),
        ⟨[("gemini-2.0-flash",
           { system := extractionSystemPrompt,
             user := [.text "p",
               .imageBase64 "image/png" (base64Encode [1])] })], none⟩)) ∧
    (call_beast_mode ⟨some "k", some "t"⟩ "p" ⟨⟨false, ["a"]⟩, ⟨false, 0⟩⟩
        (fun _ => .ok [1]) (fun _ _ => .ok (some "X"))
        (.response ⟨503, "503 Service Unavailable"⟩ (.ok .other)
          (.ok "body")) =
      .value (.ok (hfUnavailableNotice "X"),
        ⟨[("gemini-2.0-flash",
           { system := extractionSystemPrompt,
             user := [.text "p",
               .imageBase64 "image/png" (base64Encode [1])] })],
         some (hfFinalPrompt "X")⟩)) ∧
    (call_beast_mode ⟨some "k", some "t"⟩ "p" ⟨⟨false, ["a"]⟩, ⟨false, 0⟩⟩
        (fun _ => .ok [1]) (fun _ _ => .ok (some "X"))
        (.response ⟨400, "400 Bad Request"⟩ (.ok .other) (.ok "body")) =
      .value (.ok (hfBadRequestNotice "X"),
        ⟨[("gemini-2.0-flash",
           { system := extractionSystemPrompt,
             user := [.text "p",
               .imageBase64 "image/png" (base64Encode [1])] })],
         some (hfFinalPrompt "X")⟩)) ∧
    (call_beast_mode ⟨some "k", some "t"⟩ "p" ⟨⟨false, ["a"]⟩, ⟨false, 0⟩⟩
        (fun _ => .ok [1]) (fun _ _ => .ok (some "X"))
        (.transportError "down") =
      .value (.ok (hfNetworkErrorNotice "X" "down"),
        ⟨[("gemini-2.0-flash",
           { system := extractionSystemPrompt,
             user := [.text "p",
               .imageBase64 "image/png" (base64Encode [1])] })],
         some (hfFinalPrompt "X")⟩)) ∧
    (∃ u v, hfNotConfiguredNotice "X" = u ++ "X" ++ v ∧ u ≠ "" ∧ v ≠ "") := by
  have h := beast_degrade_success_C1 "p" "k" ⟨⟨false, ["a"]⟩, ⟨false, 0⟩⟩
    (fun _ => .ok [1]) (fun _ _ => .ok (some "X"))
    [.imageBase64 "image/png" (base64Encode [1])] (some "X")
    rfl (by simp) rfl rfl
  exact ⟨h.1 (.transportError "down"),
    h.2.1 "t" ⟨503, "503 Service Unavailable"⟩ (.ok .other) (.ok "body") rfl,
    h.2.2.1 "t" ⟨400, "400 Bad Request"⟩ (.ok .other) (.ok "body") rfl,
    h.2.2.2.1 "t" "down",
    h.2.2.2.2.1 "X"⟩

/-- C2 counterexample: with the secondary call answering HTTP 500 (a
non-success status that is neither 503 nor 400), the pipeline returns a
*success* (`Ok`) whose body carries the status and body text — not the
hard error (`Err`) the claim requires. -/
theorem beast_other_status_C2_counterexample :
    call_beast_mode ⟨some "k", some "t"⟩ "p" ⟨⟨false, ["a"]⟩, ⟨false, 0⟩⟩
        (fun _ => .ok [1]) (fun _ _ => .ok (some "X"))
        (.response ⟨500, "500 Internal Server Error"⟩ (.ok .other)
          (.ok "boom")) =
      .value (.ok "AI model API error (500 Internal Server Error): boom",
        ⟨[("gemini-2.0-flash",
           { system := extractionSystemPrompt,
             user := [.text "p",
               .imageBase64 "image/png" (base64Encode [1])] })],
         some (hfFinalPrompt "X")⟩) ∧
    isHardError (call_beast_mode ⟨some "k", some "t"⟩ "p"
        ⟨⟨false, ["a"]⟩, ⟨false, 0⟩⟩
        (fun _ => .ok [1]) (fun _ _ => .ok (some "X"))
        (.response ⟨500, "500 Internal Server Error"⟩ (.ok .other)
          (.ok "boom"))) = false :=
  ⟨rfl, rfl⟩

/-- C2 (amended): for every secondary-call response whose status is
non-success and neither 503 nor 400, the pipeline returns a *successful*
result whose body is the hard-error message carrying the status display
and the response body text (the extraction text is dropped); the
command's `Result` is still `Ok`, not `Err`. -/
theorem beast_other_status_C2 (prompt k tok : String) (q : ImageQueue)
    (fs : String → Except String (List Nat)) (provider : ChatProvider)
    (parts : List ContentPart) (t : Option String) (st : HttpStatus)
    (jb : Except String Json) (bodyText : String)
    (hpq : q.images.poisoned = false) (hne : q.images.val ≠ [])
    (hbuild : buildImageParts fs q.images.val = .ok parts)
    (hprov : provider "gemini-2.0-flash"
      { system := extractionSystemPrompt,
        user := .text prompt :: parts } = .ok t)
    (hns : st.isSuccess = false) (h503 : st.code ≠ 503)
    (h400 : st.code ≠ 400) :
    call_beast_mode ⟨some k, some tok⟩ prompt q fs provider
        (.response st jb (.ok bodyText)) =
      .value (.ok ("AI model API error (" ++ st.display ++ "): "
          ++ bodyText),
        ⟨[("gemini-2.0-flash",
           { system := extractionSystemPrompt,
             user := .text prompt :: parts })],
         some (hfFinalPrompt (t.getD "[No extraction]"))⟩) := by
  have hempty := ne_nil_isEmpty_false q.images.val hne
  simp [call_beast_mode, hpq, hempty, hbuild, hprov, processHfOutcome,
    hns, h503, h400]

/-- Witness for `beast_other_status_C2` at HTTP 500. -/
theorem beast_other_status_C2_witness :
    call_beast_mode ⟨some "k", some "t"⟩ "q" ⟨⟨false, ["a"]⟩, ⟨false, 0⟩⟩
        (fun _ => .ok [2]) (fun _ _ => .ok (some "Y"))
        (.response ⟨500, "500 Internal Server Error"⟩ (.ok .other)
          (.ok "oops")) =
      .value (.ok ("AI model API error (" ++ "500 Internal Server Error"
          ++ "): " ++ "oops"),
        ⟨[("gemini-2.0-flash",
           { system := extractionSystemPrompt,
             user := [.text "q",
               .imageBase64 "image/png" (base64Encode [2])] })],
         some (hfFinalPrompt "Y")⟩) :=
  beast_other_status_C2 "q" "k" "t" ⟨⟨false, ["a"]⟩, ⟨false, 0⟩⟩
    (fun _ => .ok [2]) (fun _ _ => .ok (some "Y"))
    [.imageBase64 "image/png" (base64Encode [2])] (some "Y")
    ⟨500, "500 Internal Server Error"⟩ (.ok .other) "oops"
    rfl (by simp) rfl rfl (by decide) (by decide) (by decide)

end InterviewHelper
